import Mathlib

/-!
Verification of the credential request-handling and query-dispatch layer
(`pkg/server/router/credential.go`) of ssi-service.

The Go router is embedded shallowly: each HTTP handler becomes a pure Lean
function from its inputs (the extracted parameters, the decoded body, and an
abstract Credential Service collaborator) to a `HandlerOutput` that records
the terminal result (a framework error with a status code, or a response body
with a status code), the ordered list of Credential Service invocations made
during the call, and the ordered list of strings logged via `logrus`.
-/

/-- A value of a dynamic claim map entry (`map[string]interface{}` in Go). -/
inductive ClaimValue where
  | str (s : String)
  | num (n : Int)
  | boolean (b : Bool)
  | null
deriving DecidableEq, Repr

/-- Go type `credsdk.VerifiableCredential`: opaque to the router beyond its `ID`.
We model it as an identifier plus an opaque body. -/
structure VerifiableCredential where
  ID : String
  body : String
deriving DecidableEq, Repr

namespace credential

/-- Go type `credential.CreateCredentialRequest` (service-facing canonical request). -/
structure CreateCredentialRequest where
  Issuer : String
  Subject : String
  Context : String
  JSONSchema : String
  Data : List (String × ClaimValue)
  Expiry : String
deriving DecidableEq, Repr

/-- Go type `credential.GetCredentialRequest`. -/
structure GetCredentialRequest where
  ID : String
deriving DecidableEq, Repr

/-- Go type `credential.GetCredentialByIssuerRequest`. -/
structure GetCredentialByIssuerRequest where
  Issuer : String
deriving DecidableEq, Repr

/-- Go type `credential.GetCredentialBySubjectRequest`. -/
structure GetCredentialBySubjectRequest where
  Subject : String
deriving DecidableEq, Repr

/-- Go type `credential.GetCredentialBySchemaRequest`. -/
structure GetCredentialBySchemaRequest where
  Schema : String
deriving DecidableEq, Repr

/-- Go type `credential.DeleteCredentialRequest`. -/
structure DeleteCredentialRequest where
  ID : String
deriving DecidableEq, Repr

/-- Service-layer response for create. -/
structure CreateCredentialServiceResponse where
  Credential : VerifiableCredential
deriving DecidableEq, Repr

/-- Service-layer response for get-by-id. -/
structure GetCredentialServiceResponse where
  Credential : VerifiableCredential
deriving DecidableEq, Repr

/-- Service-layer response for the filtered list operations. -/
structure GetCredentialsServiceResponse where
  Credentials : List VerifiableCredential
deriving DecidableEq, Repr

/-- The Credential Service collaborator (`credential.Service`): an abstract
record of its operations, each returning a result or an error message. -/
structure Service where
  CreateCredential : CreateCredentialRequest → Except String CreateCredentialServiceResponse
  GetCredential : GetCredentialRequest → Except String GetCredentialServiceResponse
  GetCredentialsByIssuer : GetCredentialByIssuerRequest → Except String GetCredentialsServiceResponse
  GetCredentialsBySubject : GetCredentialBySubjectRequest → Except String GetCredentialsServiceResponse
  GetCredentialsBySchema : GetCredentialBySchemaRequest → Except String GetCredentialsServiceResponse
  DeleteCredential : DeleteCredentialRequest → Except String Unit

end credential

namespace router

/-- Query parameter name constants from `credential.go`. -/
def IssuerParam : String := "issuer"

/-- Query parameter name constant `subject`. -/
def SubjectParam : String := "subject"

/-- Query parameter name constant `schema`. -/
def SchemaParam : String := "schema"

/-- Go function `util.SanitizeLog`. Modelled from the spec: the utility (under
`internal/util`, not under `src/`) reduces a caller-supplied value to a
sanitized form safe to embed in a single log line, preventing log injection
via attacker-controlled strings; it strips the line-break characters
`\n` and `\r`. -/
def SanitizeLog (s : String) : String :=
  ⟨s.data.filter (fun c => c != '\n' && c != '\r')⟩

/-- Wire-format `CreateCredentialRequest` from `credential.go`. -/
structure CreateCredentialRequest where
  Issuer : String
  Subject : String
  Context : String
  Schema : String
  Data : List (String × ClaimValue)
  Expiry : String
deriving DecidableEq, Repr

/-- Go method `CreateCredentialRequest.ToServiceRequest` from `credential.go`:
the structural mapping from the wire request to the canonical
service request. -/
def CreateCredentialRequest.ToServiceRequest (c : CreateCredentialRequest) :
    credential.CreateCredentialRequest :=
  { Issuer := c.Issuer
    Subject := c.Subject
    Context := c.Context
    JSONSchema := c.Schema
    Data := c.Data
    Expiry := c.Expiry }

/-- Go function `framework.Decode`. Modelled from the spec: the transport decode step
(under `pkg/server/framework`, not under `src/`) parses and structurally
validates the request body against the wire shape; per the
`validate:"required"` tags on `Issuer`, `Subject` and `Data`, a request
missing any of them fails validation with an error. -/
def Decode (r : CreateCredentialRequest) : Except String CreateCredentialRequest :=
  if r.Issuer = "" then .error "field validation for Issuer failed on the required tag"
  else if r.Subject = "" then .error "field validation for Subject failed on the required tag"
  else if r.Data = [] then .error "field validation for Data failed on the required tag"
  else .ok r

/-- Go function `framework.GetParam`. Modelled from the spec: the transport
parameter-extraction step (not under `src/`) returns an optional string for a
path parameter; an absent or empty parameter is reported as absent
(the spec scenario maps an empty-string `id` to the 400 missing-parameter
outcome). -/
def GetParam (raw : String) : Option String :=
  if raw = "" then none else some raw

/-- Response envelope for create (`CreateCredentialResponse`). -/
structure CreateCredentialResponse where
  Credential : VerifiableCredential
deriving DecidableEq, Repr

/-- Response envelope for get-by-id (`GetCredentialResponse`). -/
structure GetCredentialResponse where
  ID : String
  Credential : VerifiableCredential
deriving DecidableEq, Repr

/-- Response envelope for the filtered list operations
(`GetCredentialsResponse`). -/
structure GetCredentialsResponse where
  Credentials : List VerifiableCredential
deriving DecidableEq, Repr

/-- A response body passed to `framework.Respond`. -/
inductive ResponseBody where
  | create (resp : CreateCredentialResponse)
  | get (resp : GetCredentialResponse)
  | list (resp : GetCredentialsResponse)
  | empty
deriving DecidableEq, Repr

/-- The terminal outcome of a handler call: either a framework request error
(`framework.NewRequestError` / `NewRequestErrorMsg`) with the router-built
message, the optionally wrapped collaborator error, and an HTTP status code,
or a successful `framework.Respond` with a body and a status code. -/
inductive HandlerResult where
  | requestError (msg : String) (wrapped : Option String) (status : Nat)
  | respond (respBody : ResponseBody) (status : Nat)
deriving DecidableEq, Repr

/-- One invocation of a Credential Service method, with its argument. -/
inductive ServiceCall where
  | createCredential (req : credential.CreateCredentialRequest)
  | getCredential (req : credential.GetCredentialRequest)
  | getCredentialsByIssuer (req : credential.GetCredentialByIssuerRequest)
  | getCredentialsBySubject (req : credential.GetCredentialBySubjectRequest)
  | getCredentialsBySchema (req : credential.GetCredentialBySchemaRequest)
  | deleteCredential (req : credential.DeleteCredentialRequest)
deriving DecidableEq, Repr

/-- What a single handler call produced: its terminal result, the ordered
list of Credential Service invocations it made, and the strings it logged. -/
structure HandlerOutput where
  result : HandlerResult
  calls : List ServiceCall
  log : List String
deriving DecidableEq, Repr

/-- Go type `CredentialRouter` from `credential.go`: holds the Credential Service. -/
structure CredentialRouter where
  service : credential.Service

/-- Go method `CredentialRouter.CreateCredential` from `credential.go`: decode the
body; on decode failure log and return a 400 request error; otherwise call
the service with the translated request; on service failure log and return a
500 request error; on success respond 201 with the created credential. -/
def CredentialRouter.CreateCredential (cr : CredentialRouter)
    (request : CreateCredentialRequest) : HandlerOutput :=
  match Decode request with
  | .error e =>
      { result := .requestError "invalid create credential request" (some e) 400
        calls := []
        log := ["invalid create credential request"] }
  | .ok request =>
      let req := request.ToServiceRequest
      match cr.service.CreateCredential req with
      | .error e =>
          { result := .requestError "could not create credential" (some e) 500
            calls := [.createCredential req]
            log := ["could not create credential"] }
      | .ok createCredentialResponse =>
          { result := .respond (.create { Credential := createCredentialResponse.Credential }) 201
            calls := [.createCredential req]
            log := [] }

/-- Go method `CredentialRouter.GetCredential` from `credential.go`: a missing `id`
path parameter is a 400 request error before any service call; a service
failure is logged and returned as a 400 request error embedding the id; a
service success responds 200 with the credential and its ID. -/
def CredentialRouter.GetCredential (cr : CredentialRouter)
    (idParam : Option String) : HandlerOutput :=
  match idParam with
  | none =>
      { result := .requestError "cannot get credential without ID parameter" none 400
        calls := []
        log := ["cannot get credential without ID parameter"] }
  | some id =>
      match cr.service.GetCredential { ID := id } with
      | .error e =>
          let errMsg := "could not get credential with id: " ++ id
          { result := .requestError errMsg (some e) 400
            calls := [.getCredential { ID := id }]
            log := [errMsg] }
      | .ok gotCredential =>
          { result := .respond (.get { ID := gotCredential.Credential.ID
                                       Credential := gotCredential.Credential }) 200
            calls := [.getCredential { ID := id }]
            log := [] }

/-- Go method `CredentialRouter.getCredentialsByIssuer` from `credential.go`. -/
def CredentialRouter.getCredentialsByIssuer (cr : CredentialRouter)
    (issuer : String) : HandlerOutput :=
  match cr.service.GetCredentialsByIssuer { Issuer := issuer } with
  | .error e =>
      let errMsg := "could not get credentials for issuer: " ++ SanitizeLog issuer
      { result := .requestError errMsg (some e) 500
        calls := [.getCredentialsByIssuer { Issuer := issuer }]
        log := [errMsg] }
  | .ok gotCredentials =>
      { result := .respond (.list { Credentials := gotCredentials.Credentials }) 200
        calls := [.getCredentialsByIssuer { Issuer := issuer }]
        log := [] }

/-- Go method `CredentialRouter.getCredentialsBySubject` from `credential.go`. -/
def CredentialRouter.getCredentialsBySubject (cr : CredentialRouter)
    (subject : String) : HandlerOutput :=
  match cr.service.GetCredentialsBySubject { Subject := subject } with
  | .error e =>
      let errMsg := "could not get credentials for subject: " ++ SanitizeLog subject
      { result := .requestError errMsg (some e) 500
        calls := [.getCredentialsBySubject { Subject := subject }]
        log := [errMsg] }
  | .ok gotCredentials =>
      { result := .respond (.list { Credentials := gotCredentials.Credentials }) 200
        calls := [.getCredentialsBySubject { Subject := subject }]
        log := [] }

/-- Go method `CredentialRouter.getCredentialsBySchema` from `credential.go`. -/
def CredentialRouter.getCredentialsBySchema (cr : CredentialRouter)
    (schema : String) : HandlerOutput :=
  match cr.service.GetCredentialsBySchema { Schema := schema } with
  | .error e =>
      let errMsg := "could not get credentials for schema: " ++ SanitizeLog schema
      { result := .requestError errMsg (some e) 500
        calls := [.getCredentialsBySchema { Schema := schema }]
        log := [errMsg] }
  | .ok gotCredentials =>
      { result := .respond (.list { Credentials := gotCredentials.Credentials }) 200
        calls := [.getCredentialsBySchema { Schema := schema }]
        log := [] }

/-- The fixed query-parameter enumeration message from `GetCredentials`. -/
def queryParamErrMsg : String :=
  "must use one of the following query parameters: issuer, subject, schema"

/-- Go method `CredentialRouter.GetCredentials` from `credential.go`: reads the
`issuer`, `schema` and `subject` query values; if two or more are set,
returns the fixed 400 error; otherwise dispatches on the first set value in
the order issuer, subject, schema; if none is set, returns the same fixed
400 error. -/
def CredentialRouter.GetCredentials (cr : CredentialRouter)
    (issuer schema subject : Option String) : HandlerOutput :=
  let err : HandlerOutput :=
    { result := .requestError queryParamErrMsg none 400
      calls := []
      log := [] }
  if (issuer.isSome && subject.isSome) || (issuer.isSome && schema.isSome)
      || (subject.isSome && schema.isSome) then
    err
  else
    match issuer with
    | some issuerVal => cr.getCredentialsByIssuer issuerVal
    | none =>
      match subject with
      | some subjectVal => cr.getCredentialsBySubject subjectVal
      | none =>
        match schema with
        | some schemaVal => cr.getCredentialsBySchema schemaVal
        | none => err

/-- Go method `CredentialRouter.DeleteCredential` from `credential.go`: a missing `id`
path parameter is a 400 request error before any service call; a service
failure is logged and returned as a 500 request error embedding the id; a
service success responds 200 with an empty body. -/
def CredentialRouter.DeleteCredential (cr : CredentialRouter)
    (idParam : Option String) : HandlerOutput :=
  match idParam with
  | none =>
      { result := .requestError "cannot delete credential without ID parameter" none 400
        calls := []
        log := ["cannot delete credential without ID parameter"] }
  | some id =>
      match cr.service.DeleteCredential { ID := id } with
      | .error e =>
          let errMsg := "could not delete credential with id: " ++ id
          { result := .requestError errMsg (some e) 500
            calls := [.deleteCredential { ID := id }]
            log := [errMsg] }
      | .ok _ =>
          { result := .respond .empty 200
            calls := [.deleteCredential { ID := id }]
            log := [] }

/-- Number of set query parameters among issuer, subject, schema. -/
def setCount (issuer subject schema : Option String) : Nat :=
  (if issuer.isSome then 1 else 0) + (if subject.isSome then 1 else 0)
    + (if schema.isSome then 1 else 0)

/-- A string is line-safe when it contains no line-break character. -/
def lineSafe (s : String) : Prop :=
  ∀ c ∈ s.data, c ≠ '\n' ∧ c ≠ '\r'

end router

/-- A concrete credential used to instantiate theorems. -/
def sampleCredential : VerifiableCredential :=
  { ID := "cred-1", body := "vc" }

/-- A concrete Credential Service on which every operation succeeds. -/
def sampleService : credential.Service :=
  { CreateCredential := fun _ => .ok { Credential := sampleCredential }
    GetCredential := fun _ => .ok { Credential := sampleCredential }
    GetCredentialsByIssuer := fun _ => .ok { Credentials := [sampleCredential] }
    GetCredentialsBySubject := fun _ => .ok { Credentials := [sampleCredential] }
    GetCredentialsBySchema := fun _ => .ok { Credentials := [sampleCredential] }
    DeleteCredential := fun _ => .ok () }

/-- A router over the always-succeeding service. -/
def sampleRouter : router.CredentialRouter :=
  { service := sampleService }

/-- A concrete Credential Service on which every operation fails. -/
def failingService : credential.Service :=
  { CreateCredential := fun _ => .error "storage unavailable"
    GetCredential := fun _ => .error "credential not found"
    GetCredentialsByIssuer := fun _ => .error "credential not found"
    GetCredentialsBySubject := fun _ => .error "credential not found"
    GetCredentialsBySchema := fun _ => .error "credential not found"
    DeleteCredential := fun _ => .error "credential not found" }

/-- A router over the always-failing service. -/
def failingRouter : router.CredentialRouter :=
  { service := failingService }

/-- A concrete well-formed wire create request. -/
def sampleCreateRequest : router.CreateCredentialRequest :=
  { Issuer := "did:a", Subject := "did:b", Context := "", Schema := ""
    Data := [("name", .str "x")], Expiry := "" }

namespace router

/-- The by-issuer delegate calls `GetCredentialsByIssuer` exactly once,
whatever the service returns. -/
theorem getCredentialsByIssuer_calls (cr : CredentialRouter) (v : String) :
    (cr.getCredentialsByIssuer v).calls =
      [.getCredentialsByIssuer { Issuer := v }] := by
  unfold CredentialRouter.getCredentialsByIssuer
  cases cr.service.GetCredentialsByIssuer { Issuer := v } <;> rfl

/-- The by-subject delegate calls `GetCredentialsBySubject` exactly once,
whatever the service returns. -/
theorem getCredentialsBySubject_calls (cr : CredentialRouter) (v : String) :
    (cr.getCredentialsBySubject v).calls =
      [.getCredentialsBySubject { Subject := v }] := by
  unfold CredentialRouter.getCredentialsBySubject
  cases cr.service.GetCredentialsBySubject { Subject := v } <;> rfl

/-- The by-schema delegate calls `GetCredentialsBySchema` exactly once,
whatever the service returns. -/
theorem getCredentialsBySchema_calls (cr : CredentialRouter) (v : String) :
    (cr.getCredentialsBySchema v).calls =
      [.getCredentialsBySchema { Schema := v }] := by
  unfold CredentialRouter.getCredentialsBySchema
  cases cr.service.GetCredentialsBySchema { Schema := v } <;> rfl

/-- The sanitized form of any string is line-safe. -/
theorem lineSafe_sanitizeLog (s : String) : lineSafe (SanitizeLog s) := by
  intro c hc
  have h := List.mem_filter.mp hc
  have hb := h.2
  constructor <;> intro he <;> subst he <;> simp at hb

/-- Appending two line-safe strings is line-safe. -/
theorem lineSafe_append (a b : String) (ha : lineSafe a) (hb : lineSafe b) :
    lineSafe (a ++ b) := by
  intro c hc
  rw [String.data_append] at hc
  rcases List.mem_append.mp hc with h | h
  · exact ha c h
  · exact hb c h

/-- A string containing a line break is not an infix of a line-safe string. -/
theorem not_infix_of_lineSafe (v m : String) (hm : lineSafe m)
    (hv : '\n' ∈ v.data ∨ '\r' ∈ v.data) : ¬ List.IsInfix v.data m.data := by
  intro hinf
  rcases hv with h | h
  · exact ((hm '\n' (hinf.subset h)).1) rfl
  · exact ((hm '\r' (hinf.subset h)).2) rfl

end router

/-- C1: every `GetCredentials` call in which zero, or two or more, of the
query parameters issuer, subject, schema are set returns a 400 BadRequest
error carrying exactly the fixed message "must use one of the following
query parameters: issuer, subject, schema", and makes no Credential Service
call. -/
theorem C1_query_zero_or_multi_badrequest (cr : router.CredentialRouter)
    (issuer schema subject : Option String)
    (h : router.setCount issuer subject schema = 0 ∨
      2 ≤ router.setCount issuer subject schema) :
    cr.GetCredentials issuer schema subject =
      { result := .requestError router.queryParamErrMsg none 400
        calls := []
        log := [] } := by
  cases issuer <;> cases subject <;> cases schema <;>
    simp_all [router.CredentialRouter.GetCredentials, router.setCount]

/-- Witness for C1: with issuer and subject both set, the router returns the
fixed 400 error and invokes no service method. -/
theorem C1_witness :
    (router.setCount (some "did:a") (some "did:b") none = 0 ∨
      2 ≤ router.setCount (some "did:a") (some "did:b") none) ∧
    sampleRouter.GetCredentials (some "did:a") none (some "did:b") =
      { result := .requestError router.queryParamErrMsg none 400
        calls := []
        log := [] } :=
  ⟨Or.inr (by decide),
    C1_query_zero_or_multi_badrequest sampleRouter (some "did:a") none
      (some "did:b") (Or.inr (by decide))⟩

/-- C2: every `GetCredentials` call with exactly one of issuer, subject,
schema set invokes exactly the matching Credential Service list method,
exactly once, with the set value; the other two list methods are not
invoked. -/
theorem C2_query_single_filter_dispatch (cr : router.CredentialRouter)
    (issuer schema subject : Option String)
    (h : router.setCount issuer subject schema = 1) :
    (∀ v, issuer = some v → (cr.GetCredentials issuer schema subject).calls =
      [.getCredentialsByIssuer { Issuer := v }]) ∧
    (∀ v, subject = some v → (cr.GetCredentials issuer schema subject).calls =
      [.getCredentialsBySubject { Subject := v }]) ∧
    (∀ v, schema = some v → (cr.GetCredentials issuer schema subject).calls =
      [.getCredentialsBySchema { Schema := v }]) := by
  cases issuer <;> cases subject <;> cases schema <;>
    simp_all [router.CredentialRouter.GetCredentials, router.setCount,
      router.getCredentialsByIssuer_calls, router.getCredentialsBySubject_calls,
      router.getCredentialsBySchema_calls]

/-- Witness for C2: with only issuer set, exactly one by-issuer service call
is made. -/
theorem C2_witness :
    router.setCount (some "did:a") none none = 1 ∧
    (sampleRouter.GetCredentials (some "did:a") none none).calls =
      [.getCredentialsByIssuer { Issuer := "did:a" }] :=
  ⟨by decide,
    (C2_query_single_filter_dispatch sampleRouter (some "did:a") none none
      (by decide)).1 "did:a" rfl⟩

/-- C7: `ToServiceRequest` is a pure structural mapping: every canonical
field equals the corresponding wire field, with `Schema` renamed to
`JSONSchema`, and nothing is validated, defaulted or transformed. -/
theorem C7_to_service_request_lossless (c : router.CreateCredentialRequest) :
    c.ToServiceRequest.Issuer = c.Issuer ∧
    c.ToServiceRequest.Subject = c.Subject ∧
    c.ToServiceRequest.Context = c.Context ∧
    c.ToServiceRequest.Data = c.Data ∧
    c.ToServiceRequest.Expiry = c.Expiry ∧
    c.ToServiceRequest.JSONSchema = c.Schema :=
  ⟨rfl, rfl, rfl, rfl, rfl, rfl⟩

/-- C3: every create request on which the decode/validation step fails — in
particular any request missing issuer, subject or data — yields a 400
BadRequest from `CreateCredential`, and the Credential Service is never
invoked. -/
theorem C3_invalid_create_badrequest (cr : router.CredentialRouter)
    (request : router.CreateCredentialRequest)
    (h : (router.Decode request).isOk = false ∨ request.Issuer = "" ∨
      request.Subject = "" ∨ request.Data = []) :
    (∃ e, (cr.CreateCredential request).result =
      .requestError "invalid create credential request" (some e) 400) ∧
    (cr.CreateCredential request).calls = [] := by
  have hfail : ∃ e, router.Decode request = .error e := by
    unfold router.Decode
    unfold router.Decode at h
    split
    · exact ⟨_, rfl⟩
    · split
      · exact ⟨_, rfl⟩
      · split
        · exact ⟨_, rfl⟩
        · simp_all [Except.isOk, Except.toBool]
  obtain ⟨e, he⟩ := hfail
  unfold router.CredentialRouter.CreateCredential
  rw [he]
  exact ⟨⟨e, rfl⟩, rfl⟩

/-- Witness for C3: a request with an empty issuer is rejected with a 400
without reaching the service. -/
theorem C3_witness :
    ((router.Decode { sampleCreateRequest with Issuer := "" }).isOk = false ∨
      ({ sampleCreateRequest with Issuer := "" } :
        router.CreateCredentialRequest).Issuer = "" ∨
      ({ sampleCreateRequest with Issuer := "" } :
        router.CreateCredentialRequest).Subject = "" ∨
      ({ sampleCreateRequest with Issuer := "" } :
        router.CreateCredentialRequest).Data = []) ∧
    ((∃ e, (sampleRouter.CreateCredential
        { sampleCreateRequest with Issuer := "" }).result =
      .requestError "invalid create credential request" (some e) 400) ∧
    (sampleRouter.CreateCredential
        { sampleCreateRequest with Issuer := "" }).calls = []) :=
  ⟨Or.inr (Or.inl rfl),
    C3_invalid_create_badrequest sampleRouter
      { sampleCreateRequest with Issuer := "" } (Or.inr (Or.inl rfl))⟩

/-- C4: every `GetCredential` or `DeleteCredential` call whose id path
parameter is empty or absent returns a 400 BadRequest without any Credential
Service call; `GetCredential` carries the message "cannot get credential
without ID parameter". -/
theorem C4_missing_id_badrequest (cr : router.CredentialRouter)
    (rawId : String) (h : rawId = "" ∨ router.GetParam rawId = none) :
    cr.GetCredential (router.GetParam rawId) =
      { result := .requestError "cannot get credential without ID parameter"
          none 400
        calls := []
        log := ["cannot get credential without ID parameter"] } ∧
    cr.DeleteCredential (router.GetParam rawId) =
      { result := .requestError "cannot delete credential without ID parameter"
          none 400
        calls := []
        log := ["cannot delete credential without ID parameter"] } := by
  have hn : router.GetParam rawId = none := by
    rcases h with h | h
    · subst h; rfl
    · exact h
  rw [hn]
  exact ⟨rfl, rfl⟩

/-- Witness for C4: the empty-string id parameter yields the 400 outcomes
with no service call. -/
theorem C4_witness :
    ("" = "" ∨ router.GetParam "" = none) ∧
    sampleRouter.GetCredential (router.GetParam "") =
      { result := .requestError "cannot get credential without ID parameter"
          none 400
        calls := []
        log := ["cannot get credential without ID parameter"] } ∧
    sampleRouter.DeleteCredential (router.GetParam "") =
      { result := .requestError "cannot delete credential without ID parameter"
          none 400
        calls := []
        log := ["cannot delete credential without ID parameter"] } :=
  ⟨Or.inl rfl, C4_missing_id_badrequest sampleRouter "" (Or.inl rfl)⟩

/-- C6: every create request that decodes successfully and for which the
service returns credential X responds with status 201 and a response
envelope whose credential field is X unmodified. -/
theorem C6_create_success_201 (cr : router.CredentialRouter)
    (request : router.CreateCredentialRequest) (X : VerifiableCredential)
    (hd : router.Decode request = .ok request)
    (hs : cr.service.CreateCredential request.ToServiceRequest =
      .ok { Credential := X }) :
    cr.CreateCredential request =
      { result := .respond (.create { Credential := X }) 201
        calls := [.createCredential request.ToServiceRequest]
        log := [] } := by
  simp [router.CredentialRouter.CreateCredential, hd, hs]

/-- Witness for C6: a valid create request against the succeeding service
responds 201 with the service-returned credential. -/
theorem C6_witness :
    router.Decode sampleCreateRequest = .ok sampleCreateRequest ∧
    sampleService.CreateCredential sampleCreateRequest.ToServiceRequest =
      .ok { Credential := sampleCredential } ∧
    sampleRouter.CreateCredential sampleCreateRequest =
      { result := .respond (.create { Credential := sampleCredential }) 201
        calls := [.createCredential sampleCreateRequest.ToServiceRequest]
        log := [] } :=
  ⟨rfl, rfl,
    C6_create_success_201 sampleRouter sampleCreateRequest sampleCredential
      rfl rfl⟩

/-- C9: every `GetCredential` call on which the service succeeds responds
with the service-returned credential unmodified and an ID field equal to
that credential's own ID; the router never fabricates or rewrites
identifiers. -/
theorem C9_get_returns_service_id (cr : router.CredentialRouter)
    (id : String) (cred : VerifiableCredential)
    (h : cr.service.GetCredential { ID := id } = .ok { Credential := cred }) :
    cr.GetCredential (some id) =
      { result := .respond (.get { ID := cred.ID, Credential := cred }) 200
        calls := [.getCredential { ID := id }]
        log := [] } := by
  simp [router.CredentialRouter.GetCredential, h]

/-- Witness for C9: getting an existing credential echoes the service's
credential and its ID. -/
theorem C9_witness :
    sampleService.GetCredential { ID := "cred-1" } =
      .ok { Credential := sampleCredential } ∧
    sampleRouter.GetCredential (some "cred-1") =
      { result := .respond
          (.get { ID := sampleCredential.ID, Credential := sampleCredential })
          200
        calls := [.getCredential { ID := "cred-1" }]
        log := [] } :=
  ⟨rfl, C9_get_returns_service_id sampleRouter "cred-1" sampleCredential rfl⟩

namespace router

/-- The by-issuer failure message is line-safe. -/
theorem lineSafe_issuer_msg (v : String) :
    lineSafe ("could not get credentials for issuer: " ++ SanitizeLog v) :=
  lineSafe_append _ _ (by unfold lineSafe; decide) (lineSafe_sanitizeLog v)

/-- The by-subject failure message is line-safe. -/
theorem lineSafe_subject_msg (v : String) :
    lineSafe ("could not get credentials for subject: " ++ SanitizeLog v) :=
  lineSafe_append _ _ (by unfold lineSafe; decide) (lineSafe_sanitizeLog v)

/-- The by-schema failure message is line-safe. -/
theorem lineSafe_schema_msg (v : String) :
    lineSafe ("could not get credentials for schema: " ++ SanitizeLog v) :=
  lineSafe_append _ _ (by unfold lineSafe; decide) (lineSafe_sanitizeLog v)

end router

/-- C5: error classification is asymmetric: a Credential Service failure on
`GetCredential` surfaces as a 400 BadRequest-class error, while a failure on
any of the three filtered list operations surfaces as a 500 Internal-class
error. -/
theorem C5_error_classification_asymmetry (cr : router.CredentialRouter)
    (id v e1 e2 e3 e4 : String)
    (h1 : cr.service.GetCredential { ID := id } = .error e1)
    (h2 : cr.service.GetCredentialsByIssuer { Issuer := v } = .error e2)
    (h3 : cr.service.GetCredentialsBySubject { Subject := v } = .error e3)
    (h4 : cr.service.GetCredentialsBySchema { Schema := v } = .error e4) :
    (cr.GetCredential (some id)).result =
      .requestError ("could not get credential with id: " ++ id) (some e1) 400 ∧
    (cr.getCredentialsByIssuer v).result =
      .requestError ("could not get credentials for issuer: " ++
        router.SanitizeLog v) (some e2) 500 ∧
    (cr.getCredentialsBySubject v).result =
      .requestError ("could not get credentials for subject: " ++
        router.SanitizeLog v) (some e3) 500 ∧
    (cr.getCredentialsBySchema v).result =
      .requestError ("could not get credentials for schema: " ++
        router.SanitizeLog v) (some e4) 500 := by
  simp [router.CredentialRouter.GetCredential,
    router.CredentialRouter.getCredentialsByIssuer,
    router.CredentialRouter.getCredentialsBySubject,
    router.CredentialRouter.getCredentialsBySchema, h1, h2, h3, h4]

/-- Witness for C5: against the failing service, get-by-id yields 400 while
each filtered list yields 500. -/
theorem C5_witness :
    failingRouter.service.GetCredential { ID := "cred-1" } =
      .error "credential not found" ∧
    (failingRouter.GetCredential (some "cred-1")).result =
      .requestError ("could not get credential with id: " ++ "cred-1")
        (some "credential not found") 400 ∧
    (failingRouter.getCredentialsByIssuer "did:a").result =
      .requestError ("could not get credentials for issuer: " ++
        router.SanitizeLog "did:a") (some "credential not found") 500 ∧
    (failingRouter.getCredentialsBySubject "did:a").result =
      .requestError ("could not get credentials for subject: " ++
        router.SanitizeLog "did:a") (some "credential not found") 500 ∧
    (failingRouter.getCredentialsBySchema "did:a").result =
      .requestError ("could not get credentials for schema: " ++
        router.SanitizeLog "did:a") (some "credential not found") 500 :=
  ⟨rfl, C5_error_classification_asymmetry failingRouter "cred-1" "did:a"
    "credential not found" "credential not found" "credential not found"
    "credential not found" rfl rfl rfl rfl⟩

/-- C8: when a filtered list call fails, the error message returned and
logged embeds only the sanitized form of the caller-supplied filter value;
a value containing a line-break character never appears verbatim in the
message. -/
theorem C8_filter_value_sanitized (cr : router.CredentialRouter)
    (v e1 e2 e3 : String)
    (h1 : cr.service.GetCredentialsByIssuer { Issuer := v } = .error e1)
    (h2 : cr.service.GetCredentialsBySubject { Subject := v } = .error e2)
    (h3 : cr.service.GetCredentialsBySchema { Schema := v } = .error e3) :
    ((cr.getCredentialsByIssuer v).result =
      .requestError ("could not get credentials for issuer: " ++
        router.SanitizeLog v) (some e1) 500 ∧
     (cr.getCredentialsByIssuer v).log =
      ["could not get credentials for issuer: " ++ router.SanitizeLog v]) ∧
    ((cr.getCredentialsBySubject v).result =
      .requestError ("could not get credentials for subject: " ++
        router.SanitizeLog v) (some e2) 500 ∧
     (cr.getCredentialsBySubject v).log =
      ["could not get credentials for subject: " ++ router.SanitizeLog v]) ∧
    ((cr.getCredentialsBySchema v).result =
      .requestError ("could not get credentials for schema: " ++
        router.SanitizeLog v) (some e3) 500 ∧
     (cr.getCredentialsBySchema v).log =
      ["could not get credentials for schema: " ++ router.SanitizeLog v]) ∧
    ('\n' ∈ v.data ∨ '\r' ∈ v.data →
      ¬ List.IsInfix v.data
        ("could not get credentials for issuer: " ++
          router.SanitizeLog v).data ∧
      ¬ List.IsInfix v.data
        ("could not get credentials for subject: " ++
          router.SanitizeLog v).data ∧
      ¬ List.IsInfix v.data
        ("could not get credentials for schema: " ++
          router.SanitizeLog v).data) := by
  refine ⟨?_, ?_, ?_, ?_⟩
  · constructor <;>
      simp [router.CredentialRouter.getCredentialsByIssuer, h1]
  · constructor <;>
      simp [router.CredentialRouter.getCredentialsBySubject, h2]
  · constructor <;>
      simp [router.CredentialRouter.getCredentialsBySchema, h3]
  · intro hv
    exact ⟨router.not_infix_of_lineSafe v _ (router.lineSafe_issuer_msg v) hv,
      router.not_infix_of_lineSafe v _ (router.lineSafe_subject_msg v) hv,
      router.not_infix_of_lineSafe v _ (router.lineSafe_schema_msg v) hv⟩

/-- Witness for C8 at the injection attempt issuer value "did:a" followed by
a line break and a forged log line. -/
theorem C8_witness :
    failingRouter.service.GetCredentialsByIssuer
      { Issuer := "did:a\nFORGED" } = .error "credential not found" ∧
    (failingRouter.getCredentialsByIssuer "did:a\nFORGED").log =
      ["could not get credentials for issuer: " ++
        router.SanitizeLog "did:a\nFORGED"] ∧
    ('\n' ∈ ("did:a\nFORGED" : String).data ∨
      '\r' ∈ ("did:a\nFORGED" : String).data) ∧
    ¬ List.IsInfix ("did:a\nFORGED" : String).data
      ("could not get credentials for issuer: " ++
        router.SanitizeLog "did:a\nFORGED").data := by
  have h := C8_filter_value_sanitized failingRouter "did:a\nFORGED"
    "credential not found" "credential not found" "credential not found"
    rfl rfl rfl
  have hv : '\n' ∈ ("did:a\nFORGED" : String).data ∨
      '\r' ∈ ("did:a\nFORGED" : String).data := by decide
  exact ⟨rfl, h.1.2, hv, (h.2.2.2 hv).1⟩

/-- C10: when the service fails on a present id, `GetCredential` and
`DeleteCredential` return and log a message embedding the caller-supplied id
verbatim and unsanitized. -/
theorem C10_raw_id_in_error (cr : router.CredentialRouter) (id e1 e2 : String)
    (h1 : cr.service.GetCredential { ID := id } = .error e1)
    (h2 : cr.service.DeleteCredential { ID := id } = .error e2) :
    (cr.GetCredential (some id)).result =
      .requestError ("could not get credential with id: " ++ id)
        (some e1) 400 ∧
    (cr.GetCredential (some id)).log =
      ["could not get credential with id: " ++ id] ∧
    (cr.DeleteCredential (some id)).result =
      .requestError ("could not delete credential with id: " ++ id)
        (some e2) 500 ∧
    (cr.DeleteCredential (some id)).log =
      ["could not delete credential with id: " ++ id] ∧
    List.IsInfix id.data
      ("could not get credential with id: " ++ id).data ∧
    List.IsInfix id.data
      ("could not delete credential with id: " ++ id).data := by
  refine ⟨?_, ?_, ?_, ?_, ?_, ?_⟩
  · simp [router.CredentialRouter.GetCredential, h1]
  · simp [router.CredentialRouter.GetCredential, h1]
  · simp [router.CredentialRouter.DeleteCredential, h2]
  · simp [router.CredentialRouter.DeleteCredential, h2]
  · exact ⟨("could not get credential with id: " : String).data, [],
      by simp [String.data_append]⟩
  · exact ⟨("could not delete credential with id: " : String).data, [],
      by simp [String.data_append]⟩

/-- Witness for C10 at an id containing a line break: the raw id is embedded
verbatim in both failure messages. -/
theorem C10_witness :
    failingRouter.service.GetCredential { ID := "id\nFORGED" } =
      .error "credential not found" ∧
    (failingRouter.GetCredential (some "id\nFORGED")).log =
      ["could not get credential with id: " ++ "id\nFORGED"] ∧
    (failingRouter.DeleteCredential (some "id\nFORGED")).log =
      ["could not delete credential with id: " ++ "id\nFORGED"] ∧
    List.IsInfix ("id\nFORGED" : String).data
      ("could not get credential with id: " ++ "id\nFORGED").data := by
  have h := C10_raw_id_in_error failingRouter "id\nFORGED"
    "credential not found" "credential not found" rfl rfl
  exact ⟨rfl, h.2.1, h.2.2.2.1, h.2.2.2.2.1⟩
